import Mathlib

/-!
# mqtt_cpp logging shim (include/mqtt/log.hpp)

A shallow embedding of the header: the severity enumeration and its stream
output, the variadic chain of scoped logger attributes, and the two
statement-forming definitions MQTT_LOG_FP and MQTT_LOG.

The header sits on top of Boost.Log and of the stream classes of the C++
library, which are not part of the repository. The few operations of them
the header calls (the inserter for char const* on std::ostream, and
add_attribute, remove_attribute, scoped_logger_attribute, BOOST_LOG and
add_value of Boost.Log) are written out next to their use and marked as
such.
-/

namespace MQTT_NS

/-! ## Severity (log.hpp 29-49) -/

/-- The enumeration severity_level, enumerators in declaration order. -/
inductive severity_level where
  | trace
  | debug
  | info
  | warning
  | error
  | fatal
  deriving DecidableEq, Repr

/-- The values the header stores in attributes: text (channel, file,
function), severity_level (severity) and unsigned int (line). -/
inductive attr_value where
  | text (s : String)
  | level (s : severity_level)
  | number (n : Nat)
  deriving DecidableEq, Repr

/-- An attribute set: attribute names with the constant attached to each. -/
abbrev attribute_set := List (String × attr_value)

/-- Lookup of a name in an attribute set. -/
def find_attribute (s : attribute_set) (n : String) : Option attr_value :=
  List.lookup n s

/-- The calls a logger receives; kept as a history so that the order of
attachment and detachment can be stated. -/
inductive event where
  | add (name : String) (attr : attr_value) (inserted : Bool)
  | remove (name : String)
  deriving DecidableEq, Repr

/-- The logging source: its source-specific attribute set, and the history
of add_attribute and remove_attribute calls made on it, oldest first. -/
structure logger where
  attrs : attribute_set
  history : List event
  deriving DecidableEq, Repr

/-- Modelled from the spec: the attachment of a named attribute to the
logging source, logger.add_attribute(name, attr) of Boost.Log, which is not
in the repository. As in Boost.Log, the set holds one attribute per name:
the attribute is inserted when the name is not yet in the set, a name that
is already attached keeps its attribute, and the result tells which of the
two happened. -/
def add_attribute (l : logger) (n : String) (a : attr_value) : logger × Bool :=
  match find_attribute l.attrs n with
  | some _ => (logger.mk l.attrs (l.history ++ [event.add n a false]), false)
  | none => (logger.mk ((n, a) :: l.attrs) (l.history ++ [event.add n a true]), true)

/-- Modelled from the spec: the detachment of an attribute from the logging
source, logger.remove_attribute(it) of Boost.Log, the iterator standing for
the entry of the given name. -/
def remove_attribute (l : logger) (n : String) : logger :=
  logger.mk (l.attrs.filter (fun e => e.1 != n)) (l.history ++ [event.remove n])

/-- The guard log::aux::scoped_logger_attribute<Logger>: some n when the guard
registered the attribute named n (m_pLogger is set and m_itAttribute points
at that entry), none when it registered nothing (m_pLogger is null). -/
abbrev scoped_logger_attribute := Option String

/-- Modelled from the spec: the constructor of the scoped guard
scoped_logger_attribute of Boost.Log. It calls add_attribute and remembers
the entry only when the insertion took place; when the name was already
attached the guard registers nothing. -/
def scoped_logger_attribute_ctor (l : logger) (n : String) (a : attr_value) :
    logger × scoped_logger_attribute :=
  let res := add_attribute l n a
  if res.2 then (res.1, some n) else (res.1, none)

/-- Modelled from the spec: the destructor of the scoped guard
scoped_logger_attribute of Boost.Log, which removes the entry the guard
registered, if it registered one. -/
def scoped_logger_attribute_dtor (l : logger) : scoped_logger_attribute → logger
  | some n => remove_attribute l n
  | none => l

/-- The function log::attributes::make_constant: the attribute that always
yields the value it was made from. -/
def make_constant (a : attr_value) : attr_value := a

/-! ## The scoped attribute chain (log.hpp 64-91) -/

/-- The argument pack (Name, Attr, Ts...) of scoped_attrs_cond: one pair, or a
pair followed by a further pack. The templates accept nothing else. -/
inductive pack where
  | one (n : String) (a : attr_value)
  | more (n : String) (a : attr_value) (ts : pack)
  deriving DecidableEq, Repr

/-- The pairs of a pack in the order they are written at the call. -/
def pack.toList : pack → List (String × attr_value)
  | .one n a => [(n, a)]
  | .more n a ts => (n, a) :: ts.toList

/-- The names of a pack in the order they are written at the call. -/
def pack.names (ts : pack) : List String :=
  ts.toList.map Prod.fst

/-- The class template scoped_attrs_cond: the specialisation for one pair
(log.hpp 75-86) holds a guard; the primary template (log.hpp 64-73) derives
from the chain of the remaining pairs and adds a guard member. -/
inductive scoped_attrs_cond where
  | single (sla : scoped_logger_attribute)
  | derived (base : scoped_attrs_cond) (sla : scoped_logger_attribute)
  deriving DecidableEq, Repr

/-- The constructors of scoped_attrs_cond (log.hpp 66-70 and 77-80). In the
primary template the base class sub-object is initialised first, from the
remaining pairs, and the member sla after it. -/
def scoped_attrs_cond_ctor (l : logger) : pack → logger × scoped_attrs_cond
  | .one n a =>
    let r := scoped_logger_attribute_ctor l n (make_constant a)
    (r.1, .single r.2)
  | .more n a ts =>
    let b := scoped_attrs_cond_ctor l ts
    let r := scoped_logger_attribute_ctor b.1 n (make_constant a)
    (r.1, .derived b.2 r.2)

/-- The implicit destructor of scoped_attrs_cond: members are destroyed
first, the base class sub-object after them. -/
def scoped_attrs_cond_dtor (l : logger) : scoped_attrs_cond → logger
  | .single sla => scoped_logger_attribute_dtor l sla
  | .derived base sla => scoped_attrs_cond_dtor (scoped_logger_attribute_dtor l sla) base

/-- The conversion operator bool (log.hpp 81-83). It is declared in the
one-pair specialisation; a longer chain inherits it from its base class. -/
def operator_bool : scoped_attrs_cond → Bool
  | .single _ => false
  | .derived base _ => operator_bool base

/-- The function template make_scoped_attrs_cond (log.hpp 88-91). -/
def make_scoped_attrs_cond (l : logger) (ts : pack) : logger × scoped_attrs_cond :=
  scoped_attrs_cond_ctor l ts

/-! ## Emission and the two statement forms (log.hpp 94-105) -/

/-- The attribute values of a log record, by name. -/
abbrev record := List (String × attr_value)

/-- The place a log statement is written at: the values of __FILE__,
__LINE__ and BOOST_CURRENT_FUNCTION there. The line is a positive int, so
storing it as the unsigned int of the keyword line keeps its value. -/
structure call_site where
  file : String
  line : Nat
  function : String
  deriving DecidableEq, Repr

/-- Modelled from the spec: an explicitly added value, the manipulator
log::add_value(keyword, value) of Boost.Log applied to an open record. It
inserts the value under the name of the keyword into the values of the
record; as in Boost.Log, a name the record already carries keeps its
value. -/
def add_value (r : record) (n : String) (v : attr_value) : record :=
  match find_attribute r n with
  | some _ => r
  | none => r ++ [(n, v)]

/-- Modelled from the spec: the emission of one record with the attributes
attached at that time plus the explicitly added ones, BOOST_LOG(logger) of
Boost.Log followed by the three manipulators of log.hpp 101-103. A record is
opened with the values of the attributes of the logger unless the filter
rejects them, and the three call-site values are then added to that record.
The filter stands for the decision of the logging core; the global and
thread-specific attribute sets of the core are left empty. The result is
the logger as the emission leaves it and the records handed on. -/
def BOOST_LOG (filter : attribute_set → Bool) (l : logger) (site : call_site) :
    logger × List record :=
  if filter l.attrs then
    (l, [add_value (add_value (add_value l.attrs "MqttFile" (.text site.file))
      "MqttLine" (.number site.line)) "MqttFunction" (.text site.function)])
  else
    (l, [])

/-- The statement MQTT_LOG_FP(...) of log.hpp 94-103: the chain is built in
the condition of the if statement, the else branch emits, and the chain is
destroyed when the if statement is left. -/
def MQTT_LOG_FP (filter : attribute_set → Bool) (site : call_site) (l : logger)
    (ts : pack) : logger × List record :=
  let mqtt_scoped_attrs := make_scoped_attrs_cond l ts
  if operator_bool mqtt_scoped_attrs.2 then
    (scoped_attrs_cond_dtor mqtt_scoped_attrs.1 mqtt_scoped_attrs.2, [])
  else
    let e := BOOST_LOG filter mqtt_scoped_attrs.1 site
    (scoped_attrs_cond_dtor e.1 mqtt_scoped_attrs.2, e.2)

/-- The statement MQTT_LOG(chan, sev) of log.hpp 105. -/
def MQTT_LOG (filter : attribute_set → Bool) (site : call_site) (l : logger)
    (chan : String) (sev : severity_level) : logger × List record :=
  MQTT_LOG_FP filter site l
    (.more "MqttChannel" (.text chan) (.one "MqttSeverity" (.level sev)))

/-! ## Two threads on the shared global logger (log.hpp 51) -/

/-- A thread executing one MQTT_LOG(chan, sev) statement at a call site. The
counter pc tells how many of the five calls on the logger it has made; the
two guards are those of its chain, and out holds what it has emitted. -/
structure thread where
  chan : String
  sev : severity_level
  site : call_site
  pc : Nat
  base_sla : scoped_logger_attribute
  sla : scoped_logger_attribute
  out : List record
  deriving DecidableEq, Repr

/-- A thread about to execute MQTT_LOG(chan, sev). -/
def thread_start (chan : String) (sev : severity_level) (site : call_site) : thread :=
  thread.mk chan sev site 0 none none []

/-- One call of a thread on the shared logger, in the order the statement
makes them: the base sub-object guard (MqttSeverity), the member guard
(MqttChannel), the emission, the member guard is destroyed, the base guard
is destroyed. Each call is one step: the logger is the multi-thread flavour,
which locks for the duration of a call, and the emission reads the
attributes of the logger once, when it opens the record. -/
def thread_step (filter : attribute_set → Bool) (l : logger) (t : thread) :
    logger × thread :=
  match t.pc with
  | 0 =>
    let r := scoped_logger_attribute_ctor l "MqttSeverity" (make_constant (.level t.sev))
    (r.1, thread.mk t.chan t.sev t.site 1 r.2 t.sla t.out)
  | 1 =>
    let r := scoped_logger_attribute_ctor l "MqttChannel" (make_constant (.text t.chan))
    (r.1, thread.mk t.chan t.sev t.site 2 t.base_sla r.2 t.out)
  | 2 =>
    let e := BOOST_LOG filter l t.site
    (e.1, thread.mk t.chan t.sev t.site 3 t.base_sla t.sla (t.out ++ e.2))
  | 3 =>
    (scoped_logger_attribute_dtor l t.sla,
      thread.mk t.chan t.sev t.site 4 t.base_sla none t.out)
  | 4 =>
    (scoped_logger_attribute_dtor l t.base_sla,
      thread.mk t.chan t.sev t.site 5 none t.sla t.out)
  | _ => (l, t)

/-- The shared logger and the two threads. -/
structure system where
  l : logger
  t1 : thread
  t2 : thread
  deriving DecidableEq, Repr

/-- One step of the system: the scheduler picks the first thread (false) or
the second (true), which makes its next call on the logger. -/
def system_step (filter : attribute_set → Bool) (s : system) (second : Bool) : system :=
  if second then
    let r := thread_step filter s.l s.t2
    system.mk r.1 s.t1 r.2
  else
    let r := thread_step filter s.l s.t1
    system.mk r.1 r.2 s.t2

/-- The system after the scheduler's picks, taken in order. -/
def system_run (filter : attribute_set → Bool) (s : system) (schedule : List Bool) : system :=
  schedule.foldl (system_step filter) s

/-- The calls made on the logger between two of its states, oldest first. -/
def events_between (l l2 : logger) : List event :=
  l2.history.drop l.history.length

/-- The pair an add_attribute call was made with. -/
def event.offered : event → Option (String × attr_value)
  | .add n a _ => some (n, a)
  | .remove _ => none

/-- The name an add_attribute call attached, if it attached one. -/
def event.attached : event → Option String
  | .add n _ true => some n
  | .add _ _ false => none
  | .remove _ => none

/-- The names the guards of a chain hold registered, in the order the
destructor visits the guards. -/
def scoped_attrs_cond_registered : scoped_attrs_cond → List String
  | .single sla => sla.toList
  | .derived base sla => sla.toList ++ scoped_attrs_cond_registered base

/-- A thread making its next k calls with no other thread in between. -/
def thread_steps (filter : attribute_set → Bool) : Nat → logger × thread → logger × thread
  | 0, x => x
  | k + 1, x => thread_steps filter k (thread_step filter x.1 x.2)

/-- The channel and the severity a record carries. -/
def record_channel_severity (r : record) : Option attr_value × Option attr_value :=
  (find_attribute r "MqttChannel", find_attribute r "MqttSeverity")

/-! ## Lookup in attribute sets -/

theorem find_attribute_cons (k : String) (v : attr_value) (s : attribute_set) (n : String) :
    find_attribute ((k, v) :: s) n = if n = k then some v else find_attribute s n := by
  unfold find_attribute
  by_cases h : n = k
  · subst h; simp [List.lookup]
  · have : (n == k) = false := by simpa using h
    simp [List.lookup, this, h]

theorem filter_of_find_none (s : attribute_set) (n : String)
    (h : find_attribute s n = none) : s.filter (fun e => e.1 != n) = s := by
  induction s with
  | nil => rfl
  | cons e s ih =>
    obtain ⟨k, v⟩ := e
    rw [find_attribute_cons] at h
    by_cases hk : n = k
    · simp [hk] at h
    · simp only [hk, if_false] at h
      have hk2 : k ≠ n := fun e => hk e.symm
      have hb : (k != n) = true := by simpa using hk2
      simp [List.filter_cons, hb, ih h]

theorem find_attribute_append (s t : attribute_set) (n : String) :
    find_attribute (s ++ t) n =
      match find_attribute s n with
      | some v => some v
      | none => find_attribute t n := by
  induction s with
  | nil => rfl
  | cons e s ih =>
    obtain ⟨k, v⟩ := e
    by_cases hk : n = k
    · simp [find_attribute_cons, hk]
    · simp [find_attribute_cons, hk, ih]

/-! ## One guard -/

theorem sla_ctor_fresh (l : logger) (n : String) (a : attr_value)
    (h : find_attribute l.attrs n = none) :
    scoped_logger_attribute_ctor l n a =
      (logger.mk ((n, a) :: l.attrs) (l.history ++ [event.add n a true]), some n) := by
  simp [scoped_logger_attribute_ctor, add_attribute, h]

theorem sla_ctor_taken (l : logger) (n : String) (a v : attr_value)
    (h : find_attribute l.attrs n = some v) :
    scoped_logger_attribute_ctor l n a =
      (logger.mk l.attrs (l.history ++ [event.add n a false]), none) := by
  simp [scoped_logger_attribute_ctor, add_attribute, h]

theorem sla_ctor_history (l : logger) (n : String) (a : attr_value) :
    (scoped_logger_attribute_ctor l n a).1.history =
      l.history ++ [event.add n a (find_attribute l.attrs n).isNone] := by
  cases h : find_attribute l.attrs n with
  | none => simp [sla_ctor_fresh l n a h]
  | some v => simp [sla_ctor_taken l n a v h]

theorem sla_ctor_guard (l : logger) (n : String) (a : attr_value) :
    (scoped_logger_attribute_ctor l n a).2 =
      if (find_attribute l.attrs n).isNone then some n else none := by
  cases h : find_attribute l.attrs n with
  | none => simp [sla_ctor_fresh l n a h]
  | some v => simp [sla_ctor_taken l n a v h]

theorem sla_ctor_find_other (l : logger) (n m : String) (a : attr_value) (h : m ≠ n) :
    find_attribute (scoped_logger_attribute_ctor l n a).1.attrs m = find_attribute l.attrs m := by
  cases hn : find_attribute l.attrs n with
  | none => simp [sla_ctor_fresh l n a hn, find_attribute_cons, h]
  | some v => simp [sla_ctor_taken l n a v hn]

theorem sla_ctor_find_self (l : logger) (n : String) (a : attr_value) :
    find_attribute (scoped_logger_attribute_ctor l n a).1.attrs n =
      match find_attribute l.attrs n with
      | some v => some v
      | none => some a := by
  cases hn : find_attribute l.attrs n with
  | none => simp [sla_ctor_fresh l n a hn, find_attribute_cons]
  | some v => simp [sla_ctor_taken l n a v hn, hn]

theorem sla_dtor_attrs_congr (g : scoped_logger_attribute) (l l2 : logger)
    (h : l.attrs = l2.attrs) :
    (scoped_logger_attribute_dtor l g).attrs = (scoped_logger_attribute_dtor l2 g).attrs := by
  cases g with
  | none => simpa [scoped_logger_attribute_dtor] using h
  | some n => simp [scoped_logger_attribute_dtor, remove_attribute, h]

theorem sla_dtor_ctor_attrs (l : logger) (n : String) (a : attr_value) :
    (scoped_logger_attribute_dtor (scoped_logger_attribute_ctor l n a).1
      (scoped_logger_attribute_ctor l n a).2).attrs = l.attrs := by
  cases h : find_attribute l.attrs n with
  | none =>
    have hf := filter_of_find_none l.attrs n h
    simp [sla_ctor_fresh l n a h, scoped_logger_attribute_dtor, remove_attribute,
      List.filter_cons, hf]
  | some v => simp [sla_ctor_taken l n a v h, scoped_logger_attribute_dtor]

theorem sla_dtor_history (g : scoped_logger_attribute) (l : logger) :
    (scoped_logger_attribute_dtor l g).history = l.history ++ g.toList.map event.remove := by
  cases g with
  | none => simp [scoped_logger_attribute_dtor]
  | some n => simp [scoped_logger_attribute_dtor, remove_attribute]

/-! ## The chain: attribute sets -/

theorem dtor_attrs_congr (c : scoped_attrs_cond) (l l2 : logger) (h : l.attrs = l2.attrs) :
    (scoped_attrs_cond_dtor l c).attrs = (scoped_attrs_cond_dtor l2 c).attrs := by
  induction c generalizing l l2 with
  | single sla => exact sla_dtor_attrs_congr sla l l2 h
  | derived base sla ih =>
    simp only [scoped_attrs_cond_dtor]
    exact ih _ _ (sla_dtor_attrs_congr sla l l2 h)

theorem dtor_ctor_attrs (l : logger) (ts : pack) :
    (scoped_attrs_cond_dtor (scoped_attrs_cond_ctor l ts).1
      (scoped_attrs_cond_ctor l ts).2).attrs = l.attrs := by
  induction ts with
  | one n a =>
    simp only [scoped_attrs_cond_ctor, scoped_attrs_cond_dtor]
    exact sla_dtor_ctor_attrs l n (make_constant a)
  | more n a ts ih =>
    simp only [scoped_attrs_cond_ctor, scoped_attrs_cond_dtor]
    rw [dtor_attrs_congr _ _ (scoped_attrs_cond_ctor l ts).1
      (sla_dtor_ctor_attrs (scoped_attrs_cond_ctor l ts).1 n (make_constant a))]
    exact ih

theorem ctor_find_of_not_mem (l : logger) (ts : pack) (m : String) (h : m ∉ ts.names) :
    find_attribute (scoped_attrs_cond_ctor l ts).1.attrs m = find_attribute l.attrs m := by
  induction ts with
  | one n a =>
    have hm : m ≠ n := by simpa [pack.names, pack.toList] using h
    simp only [scoped_attrs_cond_ctor]
    exact sla_ctor_find_other l n m _ hm
  | more n a ts ih =>
    have hm : m ≠ n ∧ m ∉ ts.names := by
      simpa [pack.names, pack.toList, not_or] using h
    simp only [scoped_attrs_cond_ctor]
    rw [sla_ctor_find_other _ n m _ hm.1]
    exact ih hm.2

/-! ## The chain: history of calls -/

theorem events_between_append (l l2 : logger) (es : List event)
    (h : l2.history = l.history ++ es) : events_between l l2 = es := by
  simp [events_between, h]

theorem dtor_history (c : scoped_attrs_cond) (l : logger) :
    (scoped_attrs_cond_dtor l c).history =
      l.history ++ (scoped_attrs_cond_registered c).map event.remove := by
  induction c generalizing l with
  | single sla =>
    simp only [scoped_attrs_cond_dtor, scoped_attrs_cond_registered]
    exact sla_dtor_history sla l
  | derived base sla ih =>
    simp only [scoped_attrs_cond_dtor, scoped_attrs_cond_registered]
    rw [ih, sla_dtor_history]
    simp

theorem ctor_history (l : logger) (ts : pack) :
    (scoped_attrs_cond_ctor l ts).1.history =
      l.history ++ events_between l (scoped_attrs_cond_ctor l ts).1 := by
  induction ts with
  | one n a =>
    simp only [scoped_attrs_cond_ctor]
    rw [events_between_append l _ _ (sla_ctor_history l n (make_constant a))]
    exact sla_ctor_history l n (make_constant a)
  | more n a ts ih =>
    simp only [scoped_attrs_cond_ctor]
    have h := sla_ctor_history (scoped_attrs_cond_ctor l ts).1 n (make_constant a)
    rw [ih, List.append_assoc] at h
    rw [events_between_append l _ _ h]
    exact h

theorem events_ctor_one (l : logger) (n : String) (a : attr_value) :
    events_between l (scoped_attrs_cond_ctor l (.one n a)).1 =
      [event.add n (make_constant a) (find_attribute l.attrs n).isNone] := by
  simp only [scoped_attrs_cond_ctor]
  exact events_between_append l _ _ (sla_ctor_history l n (make_constant a))

theorem events_ctor_more (l : logger) (n : String) (a : attr_value) (ts : pack) :
    events_between l (scoped_attrs_cond_ctor l (.more n a ts)).1 =
      events_between l (scoped_attrs_cond_ctor l ts).1 ++
        [event.add n (make_constant a)
          (find_attribute (scoped_attrs_cond_ctor l ts).1.attrs n).isNone] := by
  simp only [scoped_attrs_cond_ctor]
  have h := sla_ctor_history (scoped_attrs_cond_ctor l ts).1 n (make_constant a)
  rw [ctor_history l ts, List.append_assoc] at h
  exact events_between_append l _ _ h

theorem events_dtor (l : logger) (c : scoped_attrs_cond) :
    events_between l (scoped_attrs_cond_dtor l c) =
      (scoped_attrs_cond_registered c).map event.remove :=
  events_between_append l _ _ (dtor_history c l)

theorem ctor_offered (l : logger) (ts : pack) :
    (events_between l (scoped_attrs_cond_ctor l ts).1).filterMap event.offered =
      (ts.toList.map (fun p => (p.1, make_constant p.2))).reverse := by
  induction ts with
  | one n a => simp [events_ctor_one, event.offered, pack.toList]
  | more n a ts ih =>
    rw [events_ctor_more, List.filterMap_append, ih]
    simp [event.offered, pack.toList]

theorem ctor_attached (l : logger) (ts : pack) :
    (events_between l (scoped_attrs_cond_ctor l ts).1).filterMap event.attached =
      (scoped_attrs_cond_registered (scoped_attrs_cond_ctor l ts).2).reverse := by
  induction ts with
  | one n a =>
    rw [events_ctor_one]
    simp only [scoped_attrs_cond_ctor, scoped_attrs_cond_registered, sla_ctor_guard]
    cases h : find_attribute l.attrs n <;> simp [event.attached]
  | more n a ts ih =>
    rw [events_ctor_more, List.filterMap_append, ih]
    simp only [scoped_attrs_cond_ctor, scoped_attrs_cond_registered, sla_ctor_guard]
    cases h : find_attribute (scoped_attrs_cond_ctor l ts).1.attrs n <;>
      simp [event.attached]

theorem ctor_events_fresh (l : logger) (ts : pack) (hd : ts.names.Nodup)
    (hf : ∀ n ∈ ts.names, find_attribute l.attrs n = none) :
    events_between l (scoped_attrs_cond_ctor l ts).1 =
      (ts.toList.map (fun p => event.add p.1 (make_constant p.2) true)).reverse := by
  induction ts with
  | one n a =>
    rw [events_ctor_one, hf n (by simp [pack.names, pack.toList])]
    simp [pack.toList]
  | more n a ts ih =>
    have hd2 : n ∉ ts.names ∧ ts.names.Nodup := by
      simpa [pack.names, pack.toList] using hd
    have hf2 : ∀ m ∈ ts.names, find_attribute l.attrs m = none := by
      intro m hm
      exact hf m (by simp only [pack.names, pack.toList, List.map_cons] at hm ⊢
                     exact List.mem_cons_of_mem _ hm)
    rw [events_ctor_more, ih hd2.2 hf2, ctor_find_of_not_mem l ts n hd2.1,
      hf n (by simp [pack.names, pack.toList])]
    simp [pack.toList]

theorem ctor_event_find (l : logger) (ts : pack) (A : String) (v : attr_value)
    (h : event.add A v true ∈ events_between l (scoped_attrs_cond_ctor l ts).1) :
    find_attribute (scoped_attrs_cond_ctor l ts).1.attrs A = some v := by
  induction ts with
  | one n a =>
    rw [events_ctor_one] at h
    simp only [List.mem_singleton, event.add.injEq] at h
    obtain ⟨hA, hv, hflag⟩ := h
    subst hA
    have hn : find_attribute l.attrs A = none := by
      cases hx : find_attribute l.attrs A with
      | none => rfl
      | some w => simp [hx] at hflag
    simp only [scoped_attrs_cond_ctor]
    rw [sla_ctor_find_self, hn, hv]
  | more n a ts ih =>
    rw [events_ctor_more, List.mem_append] at h
    simp only [scoped_attrs_cond_ctor]
    rcases h with h | h
    · have hb := ih h
      by_cases hA : A = n
      · subst hA
        rw [sla_ctor_find_self, hb]
      · rw [sla_ctor_find_other _ n A _ hA, hb]
    · simp only [List.mem_singleton, event.add.injEq] at h
      obtain ⟨hA, hv, hflag⟩ := h
      subst hA
      have hn : find_attribute (scoped_attrs_cond_ctor l ts).1.attrs A = none := by
        cases hx : find_attribute (scoped_attrs_cond_ctor l ts).1.attrs A with
        | none => rfl
        | some w => simp [hx] at hflag
      rw [sla_ctor_find_self, hn, hv]

theorem find_add_value_self (r : record) (n : String) (v : attr_value) :
    find_attribute (add_value r n v) n =
      match find_attribute r n with
      | some w => some w
      | none => some v := by
  unfold add_value
  cases h : find_attribute r n with
  | none => simp [find_attribute_append, h, find_attribute_cons]
  | some w => simp [h]

theorem find_add_value_other (r : record) (n m : String) (v : attr_value) (h : m ≠ n) :
    find_attribute (add_value r n v) m = find_attribute r m := by
  unfold add_value
  cases hn : find_attribute r n with
  | none =>
    simp only [find_attribute_append, find_attribute_cons, h, if_false]
    cases find_attribute r m <;> rfl
  | some w => rfl

theorem mqtt_chain (l : logger) (c : String) (s : severity_level)
    (hc : find_attribute l.attrs "MqttChannel" = none)
    (hs : find_attribute l.attrs "MqttSeverity" = none) :
    make_scoped_attrs_cond l
        (.more "MqttChannel" (.text c) (.one "MqttSeverity" (.level s))) =
      (logger.mk (("MqttChannel", .text c) :: ("MqttSeverity", .level s) :: l.attrs)
          (l.history ++ [event.add "MqttSeverity" (.level s) true,
            event.add "MqttChannel" (.text c) true]),
        .derived (.single (some "MqttSeverity")) (some "MqttChannel")) := by
  have h1 := sla_ctor_fresh l "MqttSeverity" (make_constant (.level s)) hs
  have h2 := sla_ctor_fresh
    (logger.mk (("MqttSeverity", make_constant (.level s)) :: l.attrs)
      (l.history ++ [event.add "MqttSeverity" (make_constant (.level s)) true]))
    "MqttChannel" (make_constant (.text c))
    (by simp [find_attribute_cons, hc])
  simp only [make_scoped_attrs_cond, scoped_attrs_cond_ctor, h1, h2]
  simp [make_constant]

theorem ctor_operator_bool (l : logger) (ts : pack) :
    operator_bool (scoped_attrs_cond_ctor l ts).2 = false := by
  induction ts with
  | one n a => rfl
  | more n a ts ih =>
    simp only [scoped_attrs_cond_ctor, operator_bool]
    exact ih

theorem ctor_find_mem_isSome (l : logger) (ts : pack) (m : String) (h : m ∈ ts.names) :
    (find_attribute (scoped_attrs_cond_ctor l ts).1.attrs m).isSome = true := by
  induction ts with
  | one n a =>
    have hm : m = n := by simpa [pack.names, pack.toList] using h
    subst hm
    simp only [scoped_attrs_cond_ctor]
    rw [sla_ctor_find_self]
    cases find_attribute l.attrs m <;> rfl
  | more n a ts ih =>
    simp only [scoped_attrs_cond_ctor]
    by_cases hm : m = n
    · subst hm
      rw [sla_ctor_find_self]
      cases find_attribute (scoped_attrs_cond_ctor l ts).1.attrs m <;> rfl
    · have hm2 : m ∈ ts.names := by
        have : m = n ∨ m ∈ ts.names := by simpa [pack.names, pack.toList] using h
        exact this.resolve_left hm
      rw [sla_ctor_find_other _ n m _ hm]
      exact ih hm2

theorem boost_log_logger (filter : attribute_set → Bool) (l : logger) (site : call_site) :
    (BOOST_LOG filter l site).1 = l := by
  unfold BOOST_LOG
  split <;> rfl

theorem mqtt_log_fp_eq (filter : attribute_set → Bool) (site : call_site) (l : logger)
    (ts : pack) :
    MQTT_LOG_FP filter site l ts =
      (scoped_attrs_cond_dtor (scoped_attrs_cond_ctor l ts).1 (scoped_attrs_cond_ctor l ts).2,
        (BOOST_LOG filter (scoped_attrs_cond_ctor l ts).1 site).2) := by
  simp [MQTT_LOG_FP, make_scoped_attrs_cond, ctor_operator_bool, boost_log_logger]

theorem mqtt_log_eq (filter : attribute_set → Bool) (site : call_site) (l : logger)
    (c : String) (s : severity_level)
    (hc : find_attribute l.attrs "MqttChannel" = none)
    (hs : find_attribute l.attrs "MqttSeverity" = none)
    (hfilter : filter (("MqttChannel", .text c) :: ("MqttSeverity", .level s) :: l.attrs)
      = true) :
    MQTT_LOG filter site l c s =
      (logger.mk l.attrs
        (l.history ++ [event.add "MqttSeverity" (.level s) true,
          event.add "MqttChannel" (.text c) true,
          event.remove "MqttChannel", event.remove "MqttSeverity"]),
       [add_value (add_value (add_value
          (("MqttChannel", .text c) :: ("MqttSeverity", .level s) :: l.attrs)
          "MqttFile" (.text site.file)) "MqttLine" (.number site.line))
          "MqttFunction" (.text site.function)]) := by
  have hm := mqtt_chain l c s hc hs
  unfold make_scoped_attrs_cond at hm
  rw [MQTT_LOG, mqtt_log_fp_eq, hm]
  simp [BOOST_LOG, hfilter, scoped_attrs_cond_dtor, scoped_logger_attribute_dtor,
    remove_attribute, List.filter_cons, filter_of_find_none _ _ hc,
    filter_of_find_none _ _ hs]

theorem find_add_value_isSome (r : record) (n m : String) (v : attr_value)
    (h : (find_attribute r m).isSome = true ∨ m = n) :
    (find_attribute (add_value r n v) m).isSome = true := by
  by_cases hm : m = n
  · subst hm
    rw [find_add_value_self]
    cases find_attribute r m <;> rfl
  · rw [find_add_value_other r n m v hm]
    exact h.resolve_right hm

theorem thread_steps_alone (filter : attribute_set → Bool) (l : logger) (c : String)
    (s : severity_level) (site : call_site) :
    thread_steps filter 5 (l, thread_start c s site) =
      ((MQTT_LOG filter site l c s).1,
        thread.mk c s site 5 none none (MQTT_LOG filter site l c s).2) := by
  simp only [MQTT_LOG, mqtt_log_fp_eq, boost_log_logger, thread_steps, thread_step,
    thread_start, scoped_attrs_cond_ctor, scoped_attrs_cond_dtor, List.nil_append]

theorem system_run_append (filter : attribute_set → Bool) (s : system) (xs ys : List Bool) :
    system_run filter s (xs ++ ys) = system_run filter (system_run filter s xs) ys := by
  simp [system_run, List.foldl_append]

theorem system_run_first (filter : attribute_set → Bool) (k : Nat) (l : logger)
    (t1 t2 : thread) :
    system_run filter (system.mk l t1 t2) (List.replicate k false) =
      system.mk (thread_steps filter k (l, t1)).1 (thread_steps filter k (l, t1)).2 t2 := by
  induction k generalizing l t1 with
  | zero => rfl
  | succ k ih =>
    simp only [List.replicate_succ, system_run, List.foldl_cons, thread_steps]
    simp only [system_run] at ih
    simp only [system_step, Bool.false_eq_true, if_false]
    exact ih _ _

theorem system_run_second (filter : attribute_set → Bool) (k : Nat) (l : logger)
    (t1 t2 : thread) :
    system_run filter (system.mk l t1 t2) (List.replicate k true) =
      system.mk (thread_steps filter k (l, t2)).1 t1 (thread_steps filter k (l, t2)).2 := by
  induction k generalizing l t2 with
  | zero => rfl
  | succ k ih =>
    simp only [List.replicate_succ, system_run, List.foldl_cons, thread_steps]
    simp only [system_run] at ih
    simp only [system_step, if_true]
    exact ih _ _

theorem mqtt_log_channel_severity (filter : attribute_set → Bool) (site : call_site)
    (l : logger) (c : String) (s : severity_level)
    (hc : find_attribute l.attrs "MqttChannel" = none)
    (hs : find_attribute l.attrs "MqttSeverity" = none)
    (hfilter : filter (("MqttChannel", .text c) :: ("MqttSeverity", .level s) :: l.attrs)
      = true) :
    (MQTT_LOG filter site l c s).1.attrs = l.attrs ∧
    (MQTT_LOG filter site l c s).2.map record_channel_severity =
      [(some (.text c), some (.level s))] := by
  rw [mqtt_log_eq filter site l c s hc hs hfilter]
  simp [record_channel_severity, find_add_value_other, find_attribute_cons]

theorem ctor_find_fresh (l : logger) (ts : pack) (hd : ts.names.Nodup)
    (hf : ∀ n ∈ ts.names, find_attribute l.attrs n = none) :
    ∀ p ∈ ts.toList,
      find_attribute (scoped_attrs_cond_ctor l ts).1.attrs p.1 = some (make_constant p.2) := by
  induction ts with
  | one n a =>
    intro p hp
    have hpe : p = (n, a) := by simpa [pack.toList] using hp
    subst hpe
    simp only [scoped_attrs_cond_ctor]
    rw [sla_ctor_find_self, hf n (by simp [pack.names, pack.toList])]
  | more n a ts ih =>
    have hd2 : n ∉ ts.names ∧ ts.names.Nodup := by
      simpa [pack.names, pack.toList] using hd
    have hf2 : ∀ m ∈ ts.names, find_attribute l.attrs m = none := by
      intro m hm
      exact hf m (by simp only [pack.names, pack.toList, List.map_cons] at hm ⊢
                     exact List.mem_cons_of_mem _ hm)
    intro p hp
    simp only [pack.toList, List.mem_cons] at hp
    simp only [scoped_attrs_cond_ctor]
    rcases hp with hp | hp
    · subst hp
      rw [sla_ctor_find_self, ctor_find_of_not_mem l ts n hd2.1,
        hf n (by simp [pack.names, pack.toList])]
    · have hne : p.1 ≠ n := by
        intro e
        apply hd2.1
        rw [← e]
        exact List.mem_map_of_mem Prod.fst hp
      rw [sla_ctor_find_other _ n p.1 _ hne]
      exact ih hd2.2 hf2 p hp

theorem boost_log_records (filter : attribute_set → Bool) (l : logger) (site : call_site) :
    ∀ r ∈ (BOOST_LOG filter l site).2, ∀ n ∈ ["MqttFile", "MqttLine", "MqttFunction"],
      (find_attribute r n).isSome = true := by
  intro r hr n hn
  unfold BOOST_LOG at hr
  split at hr
  · simp only [List.mem_singleton] at hr
    subst hr
    simp only [List.mem_cons, List.mem_singleton, List.not_mem_nil, or_false] at hn
    rcases hn with hn | hn | hn
    · subst hn
      exact find_add_value_isSome _ _ _ _ (Or.inl (find_add_value_isSome _ _ _ _
        (Or.inl (find_add_value_isSome _ _ _ _ (Or.inr rfl)))))
    · subst hn
      exact find_add_value_isSome _ _ _ _ (Or.inl (find_add_value_isSome _ _ _ _ (Or.inr rfl)))
    · subst hn
      exact find_add_value_isSome _ _ _ _ (Or.inr rfl)
  · simp at hr

theorem mqtt_log_fp_events (filter : attribute_set → Bool) (site : call_site) (l : logger)
    (ts : pack) :
    events_between l (MQTT_LOG_FP filter site l ts).1 =
      events_between l (scoped_attrs_cond_ctor l ts).1 ++
        (scoped_attrs_cond_registered (scoped_attrs_cond_ctor l ts).2).map event.remove := by
  apply events_between_append
  rw [mqtt_log_fp_eq, dtor_history, ctor_history l ts, List.append_assoc]

theorem offered_removes (ns : List String) :
    (ns.map event.remove).filterMap event.offered = [] := by
  induction ns with
  | nil => rfl
  | cons n ns ih => simp [event.offered]

theorem mqtt_log_fp_offered (filter : attribute_set → Bool) (site : call_site) (l : logger)
    (ts : pack) :
    (events_between l (MQTT_LOG_FP filter site l ts).1).filterMap event.offered =
      (ts.toList.map (fun p => (p.1, make_constant p.2))).reverse := by
  rw [mqtt_log_fp_events, List.filterMap_append, ctor_offered, offered_removes,
    List.append_nil]

/-! ## The claims -/

/-- C1: for every logger and every pack of one or more (name, value) pairs,
the chain that make_scoped_attrs_cond returns converts to bool as false, the
conversion being the one declared for the one-pair chain. -/
theorem make_scoped_attrs_cond_converts_false (l : logger) (ts : pack) :
    operator_bool (make_scoped_attrs_cond l ts).2 = false :=
  ctor_operator_bool l ts

/-- C2: for a pack of pairwise distinct names, none of them attached to the
logger before: once make_scoped_attrs_cond has built the chain every name
of the pack is attached with the value given for it, and once the chain is
destroyed none of the names is attached. -/
theorem chain_attaches_all_then_detaches_all (l : logger) (ts : pack)
    (hd : ts.names.Nodup)
    (hf : ∀ n ∈ ts.names, find_attribute l.attrs n = none) :
    (∀ p ∈ ts.toList,
      find_attribute (make_scoped_attrs_cond l ts).1.attrs p.1 = some (make_constant p.2)) ∧
    (∀ n ∈ ts.names,
      find_attribute (scoped_attrs_cond_dtor (make_scoped_attrs_cond l ts).1
        (make_scoped_attrs_cond l ts).2).attrs n = none) :=
  ⟨ctor_find_fresh l ts hd hf, fun n hn => by
    unfold make_scoped_attrs_cond
    rw [dtor_ctor_attrs]
    exact hf n hn⟩

/-- C2, at the two pairs of MQTT_LOG on a logger that carries another
attribute. -/
theorem chain_attaches_all_then_detaches_all_witness :
    (pack.more "MqttChannel" (.text "net") (.one "MqttSeverity" (.level .warning))).names.Nodup ∧
    (∀ p ∈ (pack.more "MqttChannel" (.text "net")
        (.one "MqttSeverity" (.level .warning))).toList,
      find_attribute (make_scoped_attrs_cond (logger.mk [("Host", .text "a")] [])
        (pack.more "MqttChannel" (.text "net")
          (.one "MqttSeverity" (.level .warning)))).1.attrs p.1 = some (make_constant p.2)) ∧
    (∀ n ∈ (pack.more "MqttChannel" (.text "net")
        (.one "MqttSeverity" (.level .warning))).names,
      find_attribute (scoped_attrs_cond_dtor
        (make_scoped_attrs_cond (logger.mk [("Host", .text "a")] [])
          (pack.more "MqttChannel" (.text "net") (.one "MqttSeverity" (.level .warning)))).1
        (make_scoped_attrs_cond (logger.mk [("Host", .text "a")] [])
          (pack.more "MqttChannel" (.text "net")
            (.one "MqttSeverity" (.level .warning)))).2).attrs n = none) :=
  ⟨by decide,
    chain_attaches_all_then_detaches_all (logger.mk [("Host", .text "a")] [])
      (pack.more "MqttChannel" (.text "net") (.one "MqttSeverity" (.level .warning)))
      (by decide) (by decide)⟩

/-- C3: in the chain built from a pair followed by further pairs, the calls
that attach the further pairs come first and the call for the leading pair
is the last one; and for every chain the destructor makes only detaching
calls, which detach the attached names in exactly the reverse of the order
in which they were attached. -/
theorem chain_attach_detach_order (l : logger) :
    (∀ n a ts, ∃ inserted,
      events_between l (make_scoped_attrs_cond l (.more n a ts)).1 =
        events_between l (make_scoped_attrs_cond l ts).1 ++
          [event.add n (make_constant a) inserted]) ∧
    (∀ ts,
      events_between (make_scoped_attrs_cond l ts).1
        (scoped_attrs_cond_dtor (make_scoped_attrs_cond l ts).1
          (make_scoped_attrs_cond l ts).2) =
      (((events_between l (make_scoped_attrs_cond l ts).1).filterMap
        event.attached).reverse).map event.remove) := by
  unfold make_scoped_attrs_cond
  constructor
  · intro n a ts
    exact ⟨_, events_ctor_more l n a ts⟩
  · intro ts
    rw [events_dtor, ctor_attached, List.reverse_reverse]

/-- C4: for every prior state of the logger and every pack, building the
chain and then destroying it leaves the attribute set of the logger equal
to what it was before the chain was built. -/
theorem chain_restores_attribute_set (l : logger) (ts : pack) :
    (scoped_attrs_cond_dtor (make_scoped_attrs_cond l ts).1
      (make_scoped_attrs_cond l ts).2).attrs = l.attrs :=
  dtor_ctor_attrs l ts

/-- C5: when the outer chain has attached the name A with value v1, and an
inner chain whose pack gives A another value v2 is built and destroyed while
the outer chain is alive, then after the inner chain is destroyed the logger
still carries A with value v1, as it does until the outer chain goes. -/
theorem nested_chain_keeps_outer_value (l : logger) (outer inner : pack)
    (A : String) (v1 v2 : attr_value)
    (_hv : v1 ≠ v2)
    (houter : event.add A (make_constant v1) true ∈
      events_between l (make_scoped_attrs_cond l outer).1)
    (_hinner : (A, v2) ∈ inner.toList) :
    find_attribute (scoped_attrs_cond_dtor
      (make_scoped_attrs_cond (make_scoped_attrs_cond l outer).1 inner).1
      (make_scoped_attrs_cond (make_scoped_attrs_cond l outer).1 inner).2).attrs A =
        some (make_constant v1) := by
  unfold make_scoped_attrs_cond at houter ⊢
  rw [dtor_ctor_attrs]
  exact ctor_event_find l outer A _ houter

/-- C5, at an outer MQTT_LOG chain for channel net and an inner chain that
names MqttChannel again with the value db. -/
theorem nested_chain_keeps_outer_value_witness :
    attr_value.text "net" ≠ attr_value.text "db" ∧
    event.add "MqttChannel" (make_constant (.text "net")) true ∈
      events_between (logger.mk [] []) (make_scoped_attrs_cond (logger.mk [] [])
        (pack.more "MqttChannel" (.text "net") (.one "MqttSeverity" (.level .info)))).1 ∧
    ("MqttChannel", attr_value.text "db") ∈ (pack.one "MqttChannel" (.text "db")).toList ∧
    find_attribute (scoped_attrs_cond_dtor
      (make_scoped_attrs_cond (make_scoped_attrs_cond (logger.mk [] [])
        (pack.more "MqttChannel" (.text "net") (.one "MqttSeverity" (.level .info)))).1
        (pack.one "MqttChannel" (.text "db"))).1
      (make_scoped_attrs_cond (make_scoped_attrs_cond (logger.mk [] [])
        (pack.more "MqttChannel" (.text "net") (.one "MqttSeverity" (.level .info)))).1
        (pack.one "MqttChannel" (.text "db"))).2).attrs "MqttChannel" =
        some (make_constant (.text "net")) :=
  ⟨by decide, by decide, by decide,
    nested_chain_keeps_outer_value (logger.mk [] [])
      (pack.more "MqttChannel" (.text "net") (.one "MqttSeverity" (.level .info)))
      (pack.one "MqttChannel" (.text "db")) "MqttChannel" (.text "net") (.text "db")
      (by decide) (by decide) (by decide)⟩

/-- C6 as stated fails: for the call with the pairs (A, 1), (B, 2) on a logger
without attributes, the first pair offered to the logger and attached is
(B, 2) and (A, 1) comes after it, so the pairs are not attached in the order
given. -/
theorem attach_order_given_counterexample :
    (events_between (logger.mk [] []) (make_scoped_attrs_cond (logger.mk [] [])
      (pack.more "A" (.number 1) (.one "B" (.number 2)))).1).filterMap event.offered ≠
      (pack.more "A" (.number 1) (.one "B" (.number 2))).toList.map
        (fun p => (p.1, make_constant p.2)) ∧
    events_between (logger.mk [] []) (make_scoped_attrs_cond (logger.mk [] [])
      (pack.more "A" (.number 1) (.one "B" (.number 2)))).1 =
      [event.add "B" (.number 2) true, event.add "A" (.number 1) true] := by
  decide

/-- C6, amended: every call of make_scoped_attrs_cond offers the pairs to the
logger as constant attributes in the reverse of the order given (the last
pair first, the first pair last), all of it before the chain is returned;
and when the names are pairwise distinct and none is attached before, each
of these calls attaches its pair. -/
theorem attach_order_reversed (l : logger) (ts : pack) :
    (events_between l (make_scoped_attrs_cond l ts).1).filterMap event.offered =
      (ts.toList.map (fun p => (p.1, make_constant p.2))).reverse ∧
    (ts.names.Nodup → (∀ n ∈ ts.names, find_attribute l.attrs n = none) →
      events_between l (make_scoped_attrs_cond l ts).1 =
        (ts.toList.map (fun p => event.add p.1 (make_constant p.2) true)).reverse) :=
  ⟨ctor_offered l ts, ctor_events_fresh l ts⟩

/-- C6 amended, at the two pairs of MQTT_LOG on a logger without attributes:
MqttSeverity is attached first and MqttChannel after it. -/
theorem attach_order_reversed_witness :
    (pack.more "MqttChannel" (.text "net") (.one "MqttSeverity" (.level .warning))).names.Nodup ∧
    (∀ n ∈ (pack.more "MqttChannel" (.text "net")
        (.one "MqttSeverity" (.level .warning))).names,
      find_attribute (logger.mk [] []).attrs n = none) ∧
    events_between (logger.mk [] []) (make_scoped_attrs_cond (logger.mk [] [])
      (pack.more "MqttChannel" (.text "net") (.one "MqttSeverity" (.level .warning)))).1 =
      [event.add "MqttSeverity" (.level .warning) true,
        event.add "MqttChannel" (.text "net") true] :=
  ⟨by decide, by decide,
    (attach_order_reversed (logger.mk [] [])
      (pack.more "MqttChannel" (.text "net") (.one "MqttSeverity" (.level .warning)))).2
      (by decide) (by decide)⟩

/-- C8 as stated fails: on a logger that carries no MqttChannel and no
MqttSeverity but does carry MqttFile, with no filter in the way, the
statement MQTT_LOG(net, warning) written at conn.cpp line 42 in onTimeout
emits one record whose MqttFile is the value of the logger, not conn.cpp. -/
theorem mqtt_log_record_counterexample :
    find_attribute (logger.mk [("MqttFile", .text "legacy.cpp")] []).attrs "MqttChannel" = none ∧
    find_attribute (logger.mk [("MqttFile", .text "legacy.cpp")] []).attrs "MqttSeverity" = none ∧
    (MQTT_LOG (fun _ => true) (call_site.mk "conn.cpp" 42 "onTimeout")
      (logger.mk [("MqttFile", .text "legacy.cpp")] []) "net" .warning).2.map
        (fun r => find_attribute r "MqttFile") = [some (.text "legacy.cpp")] := by
  decide

/-- C8, amended: on a logger to which none of MqttChannel, MqttSeverity,
MqttFile, MqttLine and MqttFunction is attached, and whose attributes at the
time of emission the filter lets through, MQTT_LOG(c, s) written at file f,
line n, function g emits exactly one record, and that record carries
MqttChannel = c, MqttSeverity = s, MqttFile = f, MqttLine = n and
MqttFunction = g. -/
theorem mqtt_log_emits_record (filter : attribute_set → Bool) (site : call_site)
    (l : logger) (c : String) (s : severity_level)
    (hc : find_attribute l.attrs "MqttChannel" = none)
    (hs : find_attribute l.attrs "MqttSeverity" = none)
    (hfile : find_attribute l.attrs "MqttFile" = none)
    (hline : find_attribute l.attrs "MqttLine" = none)
    (hfunction : find_attribute l.attrs "MqttFunction" = none)
    (hfilter : filter (make_scoped_attrs_cond l
      (.more "MqttChannel" (.text c) (.one "MqttSeverity" (.level s)))).1.attrs = true) :
    ∃ r, (MQTT_LOG filter site l c s).2 = [r] ∧
      find_attribute r "MqttChannel" = some (.text c) ∧
      find_attribute r "MqttSeverity" = some (.level s) ∧
      find_attribute r "MqttFile" = some (.text site.file) ∧
      find_attribute r "MqttLine" = some (.number site.line) ∧
      find_attribute r "MqttFunction" = some (.text site.function) := by
  rw [mqtt_chain l c s hc hs] at hfilter
  rw [mqtt_log_eq filter site l c s hc hs hfilter]
  refine ⟨_, rfl, ?_, ?_, ?_, ?_, ?_⟩
  · simp [find_add_value_other, find_attribute_cons]
  · simp [find_add_value_other, find_attribute_cons]
  · simp [find_add_value_other, find_add_value_self, find_attribute_cons, hfile]
  · simp [find_add_value_other, find_add_value_self, find_attribute_cons, hline]
  · simp [find_add_value_other, find_add_value_self, find_attribute_cons, hfunction]

/-- C8 amended, at the scenario of the specification: channel net, severity
warning, written at conn.cpp line 42 in onTimeout, on a logger without
attributes and with a filter that lets everything through. -/
theorem mqtt_log_emits_record_witness :
    ∃ r, (MQTT_LOG (fun _ => true) (call_site.mk "conn.cpp" 42 "onTimeout")
        (logger.mk [] []) "net" .warning).2 = [r] ∧
      find_attribute r "MqttChannel" = some (.text "net") ∧
      find_attribute r "MqttSeverity" = some (.level .warning) ∧
      find_attribute r "MqttFile" = some (.text "conn.cpp") ∧
      find_attribute r "MqttLine" = some (.number 42) ∧
      find_attribute r "MqttFunction" = some (.text "onTimeout") :=
  mqtt_log_emits_record (fun _ => true) (call_site.mk "conn.cpp" 42 "onTimeout")
    (logger.mk [] []) "net" .warning
    (by decide) (by decide) (by decide) (by decide) (by decide) (by rfl)

/-- C9 as stated fails: with the first thread logging (net, warning) and the
second (db, error) on a shared logger without attributes, in the
interleaving where the first thread attaches its two attributes, the second
thread then makes all five of its calls, and the first thread finishes
afterwards, both threads complete and the record of the second thread
carries the channel and the severity of the first. -/
theorem concurrent_mqtt_log_counterexample :
    (system_run (fun _ => true)
      (system.mk (logger.mk [] [])
        (thread_start "net" .warning (call_site.mk "conn.cpp" 42 "onTimeout"))
        (thread_start "db" .error (call_site.mk "db.cpp" 7 "onQuery")))
      [false, false, true, true, true, true, true, false, false, false]).t2.out.map
        record_channel_severity = [(some (.text "net"), some (.level .warning))] ∧
    (system_run (fun _ => true)
      (system.mk (logger.mk [] [])
        (thread_start "net" .warning (call_site.mk "conn.cpp" 42 "onTimeout"))
        (thread_start "db" .error (call_site.mk "db.cpp" 7 "onQuery")))
      [false, false, true, true, true, true, true, false, false, false]).t1.pc = 5 ∧
    (system_run (fun _ => true)
      (system.mk (logger.mk [] [])
        (thread_start "net" .warning (call_site.mk "conn.cpp" 42 "onTimeout"))
        (thread_start "db" .error (call_site.mk "db.cpp" 7 "onQuery")))
      [false, false, true, true, true, true, true, false, false, false]).t2.pc = 5 := by
  decide

/-- C9, amended: when the two MQTT_LOG statements do not overlap, that is one
thread makes all five of its calls on the shared logger before the other
makes its first, then on a logger with neither MqttChannel nor MqttSeverity
attached and with a filter that lets both through, each thread emits exactly
one record and it carries that thread's own channel and severity, and the
attribute set of the logger ends as it began. -/
theorem serial_mqtt_log_records (filter : attribute_set → Bool) (l : logger)
    (c1 c2 : String) (s1 s2 : severity_level) (site1 site2 : call_site)
    (second_first : Bool)
    (hc : find_attribute l.attrs "MqttChannel" = none)
    (hs : find_attribute l.attrs "MqttSeverity" = none)
    (hfilter1 : filter (make_scoped_attrs_cond l
      (.more "MqttChannel" (.text c1) (.one "MqttSeverity" (.level s1)))).1.attrs = true)
    (hfilter2 : filter (make_scoped_attrs_cond l
      (.more "MqttChannel" (.text c2) (.one "MqttSeverity" (.level s2)))).1.attrs = true) :
    (system_run filter
      (system.mk l (thread_start c1 s1 site1) (thread_start c2 s2 site2))
      (List.replicate 5 second_first ++ List.replicate 5 (!second_first))).t1.out.map
        record_channel_severity = [(some (.text c1), some (.level s1))] ∧
    (system_run filter
      (system.mk l (thread_start c1 s1 site1) (thread_start c2 s2 site2))
      (List.replicate 5 second_first ++ List.replicate 5 (!second_first))).t2.out.map
        record_channel_severity = [(some (.text c2), some (.level s2))] ∧
    (system_run filter
      (system.mk l (thread_start c1 s1 site1) (thread_start c2 s2 site2))
      (List.replicate 5 second_first ++ List.replicate 5 (!second_first))).l.attrs =
        l.attrs := by
  rw [mqtt_chain l c1 s1 hc hs] at hfilter1
  rw [mqtt_chain l c2 s2 hc hs] at hfilter2
  have a1 := mqtt_log_channel_severity filter site1 l c1 s1 hc hs hfilter1
  have a2 := mqtt_log_channel_severity filter site2 l c2 s2 hc hs hfilter2
  cases second_first with
  | false =>
    have hc2 : find_attribute (MQTT_LOG filter site1 l c1 s1).1.attrs "MqttChannel" = none := by
      rw [a1.1]; exact hc
    have hs2 : find_attribute (MQTT_LOG filter site1 l c1 s1).1.attrs "MqttSeverity" = none := by
      rw [a1.1]; exact hs
    have hf2 : filter (("MqttChannel", .text c2) :: ("MqttSeverity", .level s2) ::
        (MQTT_LOG filter site1 l c1 s1).1.attrs) = true := by
      rw [a1.1]; exact hfilter2
    have b2 := mqtt_log_channel_severity filter site2 _ c2 s2 hc2 hs2 hf2
    rw [system_run_append, system_run_first,
      thread_steps_alone filter l c1 s1 site1]
    simp only [Bool.not_false]
    rw [system_run_second, thread_steps_alone filter _ c2 s2 site2]
    exact ⟨a1.2, b2.2, b2.1.trans a1.1⟩
  | true =>
    have hc1 : find_attribute (MQTT_LOG filter site2 l c2 s2).1.attrs "MqttChannel" = none := by
      rw [a2.1]; exact hc
    have hs1 : find_attribute (MQTT_LOG filter site2 l c2 s2).1.attrs "MqttSeverity" = none := by
      rw [a2.1]; exact hs
    have hf1 : filter (("MqttChannel", .text c1) :: ("MqttSeverity", .level s1) ::
        (MQTT_LOG filter site2 l c2 s2).1.attrs) = true := by
      rw [a2.1]; exact hfilter1
    have b1 := mqtt_log_channel_severity filter site1 _ c1 s1 hc1 hs1 hf1
    rw [system_run_append, system_run_second,
      thread_steps_alone filter l c2 s2 site2]
    simp only [Bool.not_true]
    rw [system_run_first, thread_steps_alone filter _ c1 s1 site1]
    exact ⟨b1.2, a2.2, b1.1.trans a2.1⟩

/-- C9 amended, at the threads logging (net, warning) and (db, error) one
after the other on a logger without attributes. -/
theorem serial_mqtt_log_records_witness :
    (system_run (fun _ => true)
      (system.mk (logger.mk [] [])
        (thread_start "net" .warning (call_site.mk "conn.cpp" 42 "onTimeout"))
        (thread_start "db" .error (call_site.mk "db.cpp" 7 "onQuery")))
      (List.replicate 5 false ++ List.replicate 5 (!false))).t1.out.map
        record_channel_severity = [(some (.text "net"), some (.level .warning))] ∧
    (system_run (fun _ => true)
      (system.mk (logger.mk [] [])
        (thread_start "net" .warning (call_site.mk "conn.cpp" 42 "onTimeout"))
        (thread_start "db" .error (call_site.mk "db.cpp" 7 "onQuery")))
      (List.replicate 5 false ++ List.replicate 5 (!false))).t2.out.map
        record_channel_severity = [(some (.text "db"), some (.level .error))] ∧
    (system_run (fun _ => true)
      (system.mk (logger.mk [] [])
        (thread_start "net" .warning (call_site.mk "conn.cpp" 42 "onTimeout"))
        (thread_start "db" .error (call_site.mk "db.cpp" 7 "onQuery")))
      (List.replicate 5 false ++ List.replicate 5 (!false))).l.attrs =
        (logger.mk [] []).attrs :=
  serial_mqtt_log_records (fun _ => true) (logger.mk [] []) "net" "db" .warning .error
    (call_site.mk "conn.cpp" 42 "onTimeout") (call_site.mk "db.cpp" 7 "onQuery") false
    (by decide) (by decide) (by rfl) (by rfl)

/-- C10 as stated fails: for MQTT_LOG_FP with the pairs (MqttChannel, net),
(MqttFile, x) on a logger that carries MqttChannel = old and no MqttFile,
the attribute set of the logger during the emission carries MqttFile though
it was not attached before the statement, and carries MqttChannel with the
value old instead of the scoped pair. -/
theorem call_site_attributes_counterexample :
    find_attribute (logger.mk [("MqttChannel", .text "old")] []).attrs "MqttFile" = none ∧
    find_attribute (make_scoped_attrs_cond (logger.mk [("MqttChannel", .text "old")] [])
      (pack.more "MqttChannel" (.text "net") (.one "MqttFile" (.text "x")))).1.attrs
        "MqttFile" = some (.text "x") ∧
    find_attribute (make_scoped_attrs_cond (logger.mk [("MqttChannel", .text "old")] [])
      (pack.more "MqttChannel" (.text "net") (.one "MqttFile" (.text "x")))).1.attrs
        "MqttChannel" = some (.text "old") := by
  decide

/-- C10, amended: in every MQTT_LOG_FP statement the only calls made on the
logger are the attach calls of the scoped pairs, last pair first, followed
by the detach calls of the attached names in reverse, so none of MqttFile,
MqttLine and MqttFunction is ever offered to the logger unless it is itself
a scoped name; the record, if the filter lets it through, is opened from the
attribute set the logger has once the chain is built and the three call-site
values are added to that record; during the emission that set holds every
scoped name (with the scoped value when the scoped names are pairwise
distinct and none was attached before) and none of the three call-site
names unless that name was attached before the statement or is itself one
of the scoped names; after the statement the attribute set is what it was
before the statement. -/
theorem call_site_attributes_stay_off_logger (filter : attribute_set → Bool)
    (site : call_site) (l : logger) (ts : pack) :
    events_between l (MQTT_LOG_FP filter site l ts).1 =
      events_between l (make_scoped_attrs_cond l ts).1 ++
        (((events_between l (make_scoped_attrs_cond l ts).1).filterMap
          event.attached).reverse).map event.remove ∧
    (events_between l (MQTT_LOG_FP filter site l ts).1).filterMap event.offered =
      (ts.toList.map (fun p => (p.1, make_constant p.2))).reverse ∧
    (∀ n ∈ ["MqttFile", "MqttLine", "MqttFunction"], n ∉ ts.names →
      ∀ a inserted, event.add n a inserted ∉
        events_between l (MQTT_LOG_FP filter site l ts).1) ∧
    (MQTT_LOG_FP filter site l ts).2 =
      (if filter (make_scoped_attrs_cond l ts).1.attrs then
        [add_value (add_value (add_value (make_scoped_attrs_cond l ts).1.attrs
          "MqttFile" (.text site.file)) "MqttLine" (.number site.line))
          "MqttFunction" (.text site.function)]
      else []) ∧
    (∀ r ∈ (MQTT_LOG_FP filter site l ts).2,
      ∀ n ∈ ["MqttFile", "MqttLine", "MqttFunction"], (find_attribute r n).isSome = true) ∧
    (∀ n ∈ ts.names, (find_attribute (make_scoped_attrs_cond l ts).1.attrs n).isSome = true) ∧
    (ts.names.Nodup → (∀ n ∈ ts.names, find_attribute l.attrs n = none) →
      ∀ p ∈ ts.toList,
        find_attribute (make_scoped_attrs_cond l ts).1.attrs p.1 = some (make_constant p.2)) ∧
    (∀ n ∈ ["MqttFile", "MqttLine", "MqttFunction"],
      find_attribute l.attrs n = none → n ∉ ts.names →
        find_attribute (make_scoped_attrs_cond l ts).1.attrs n = none) ∧
    (MQTT_LOG_FP filter site l ts).1.attrs = l.attrs := by
  refine ⟨?_, mqtt_log_fp_offered filter site l ts, ?_, ?_, ?_, ?_, ?_, ?_, ?_⟩
  · unfold make_scoped_attrs_cond
    rw [mqtt_log_fp_events, ctor_attached, List.reverse_reverse]
  · intro n _ hnot a inserted hmem
    have hoff : (n, a) ∈ (events_between l (MQTT_LOG_FP filter site l ts).1).filterMap
        event.offered :=
      List.mem_filterMap.mpr ⟨_, hmem, rfl⟩
    rw [mqtt_log_fp_offered] at hoff
    apply hnot
    simp only [List.mem_reverse, List.mem_map] at hoff
    obtain ⟨p, hp, hpe⟩ := hoff
    have hn : p.1 = n := congrArg Prod.fst hpe
    rw [← hn]
    exact List.mem_map_of_mem Prod.fst hp
  · rw [mqtt_log_fp_eq]
    unfold make_scoped_attrs_cond BOOST_LOG
    split <;> rfl
  · rw [mqtt_log_fp_eq]
    exact boost_log_records _ _ _
  · exact fun n hn => ctor_find_mem_isSome l ts n hn
  · exact ctor_find_fresh l ts
  · intro n _ hfree hnot
    unfold make_scoped_attrs_cond
    rw [ctor_find_of_not_mem l ts n hnot]
    exact hfree
  · rw [mqtt_log_fp_eq]
    exact dtor_ctor_attrs l ts

/-- C10 amended, at MQTT_LOG(net, warning) written at conn.cpp line 42 in
onTimeout on a logger without attributes: the statement makes four calls on
the logger, two that attach the scoped pairs and two that detach them; and
during the emission the logger carries the two scoped pairs and none of the
three call-site names. -/
theorem call_site_attributes_stay_off_logger_witness :
    events_between (logger.mk [] [])
      (MQTT_LOG_FP (fun _ => true) (call_site.mk "conn.cpp" 42 "onTimeout") (logger.mk [] [])
        (pack.more "MqttChannel" (.text "net") (.one "MqttSeverity" (.level .warning)))).1 =
      [event.add "MqttSeverity" (.level .warning) true,
        event.add "MqttChannel" (.text "net") true,
        event.remove "MqttChannel", event.remove "MqttSeverity"] ∧
    (pack.more "MqttChannel" (.text "net") (.one "MqttSeverity" (.level .warning))).names.Nodup ∧
    (∀ p ∈ (pack.more "MqttChannel" (.text "net")
        (.one "MqttSeverity" (.level .warning))).toList,
      find_attribute (make_scoped_attrs_cond (logger.mk [] [])
        (pack.more "MqttChannel" (.text "net")
          (.one "MqttSeverity" (.level .warning)))).1.attrs p.1 = some (make_constant p.2)) ∧
    (∀ n ∈ ["MqttFile", "MqttLine", "MqttFunction"],
      find_attribute (logger.mk [] []).attrs n = none →
      n ∉ (pack.more "MqttChannel" (.text "net")
        (.one "MqttSeverity" (.level .warning))).names →
      find_attribute (make_scoped_attrs_cond (logger.mk [] [])
        (pack.more "MqttChannel" (.text "net")
          (.one "MqttSeverity" (.level .warning)))).1.attrs n = none) :=
  ⟨(call_site_attributes_stay_off_logger (fun _ => true)
      (call_site.mk "conn.cpp" 42 "onTimeout") (logger.mk [] [])
      (pack.more "MqttChannel" (.text "net")
        (.one "MqttSeverity" (.level .warning)))).1.trans (by decide),
    by decide,
    (call_site_attributes_stay_off_logger (fun _ => true)
      (call_site.mk "conn.cpp" 42 "onTimeout") (logger.mk [] [])
      (pack.more "MqttChannel" (.text "net")
        (.one "MqttSeverity" (.level .warning)))).2.2.2.2.2.2.1 (by decide) (by decide),
    (call_site_attributes_stay_off_logger (fun _ => true)
      (call_site.mk "conn.cpp" 42 "onTimeout") (logger.mk [] [])
      (pack.more "MqttChannel" (.text "net")
        (.one "MqttSeverity" (.level .warning)))).2.2.2.2.2.2.2.1⟩

end MQTT_NS
